import Mathlib

/-!
# OSCAR core — shallow embedding and verification

A shallow embedding of the OSCAR agent core (`oscar/core/safety.py`,
`oscar/core/agent.py`): the risk analyzer, the tiered confirmation
workflow, the plan executor, session bookkeeping and the audit-logging
path of `process_request`.  All definitions are executable and follow the
Python source line by line; console output (`rich` panels, spinners,
tables) is pure presentation and is not modelled.  Interactive prompts
are modelled by passing the human's (possibly interrupting) replies as
explicit arguments and recording the prompts actually issued as an event
trace.  A Python exception that escapes a modelled function is
represented explicitly (constructor `ConfOutcome.raised`, field
`raised`) rather than by nontermination.
-/

namespace Oscar

/-! ## String helpers

Python's `in` on strings is substring containment, and safety checks use
lower-cased commands.  We implement containment over character lists.
-/

/-- `needle` occurs at the start of `hay` (character lists). -/
def listStartsWith : List Char → List Char → Bool
  | [], _ => true
  | _ :: _, [] => false
  | a :: as, b :: bs => a == b && listStartsWith as bs

/-- `needle` occurs somewhere in `hay` (character lists). -/
def listHasSub (needle : List Char) : List Char → Bool
  | [] => listStartsWith needle []
  | c :: cs => listStartsWith needle (c :: cs) || listHasSub needle cs

/-- Python `needle in hay` for strings. -/
def strContains (hay needle : String) : Bool :=
  listHasSub needle.toList hay.toList

/-- Python `s[:n]` (character prefix). -/
def strTake (s : String) (n : Nat) : String :=
  String.mk (s.toList.take n)

/-! ## Regular-expression subset

`safety.py` matches `step.command` against configured dangerous-command
patterns with `re.search(pattern, command, re.IGNORECASE)`.  The default
configuration (`settings.py`, `_create_default_config`) uses only
literal characters and `\s+` (one or more whitespace), so we embed
exactly that pattern subset: a pattern is parsed into literal tokens and
`\s+` tokens, matched case-insensitively at every position of the
command. -/

/-- Token of the embedded pattern subset. -/
inductive RTok where
  | lit (c : Char)
  | wsPlus
deriving Repr, DecidableEq

/-- Python `\s` whitespace class. -/
def pyIsSpace (c : Char) : Bool :=
  c == ' ' || c == '\t' || c == '\n' || c == '\r' || c == '\x0b' || c == '\x0c'

/-- Parse a pattern string over the subset `{literal, \s+}`. -/
def parsePat : List Char → List RTok
  | '\\' :: 's' :: '+' :: rest => RTok.wsPlus :: parsePat rest
  | c :: rest => RTok.lit c :: parsePat rest
  | [] => []

/-- Match a token list against a prefix of the input (case-insensitive,
`\s+` greedy-or-backtracking, which is equivalent for existence).  Each
call shrinks `ts.length + s.length`, so structural recursion on a fuel
of that size keeps the definition kernel-reducible; the fuel never runs
out when entered through `matchToks`. -/
def matchToksF : Nat → List RTok → List Char → Bool
  | 0, _, _ => false
  | _ + 1, [], _ => true
  | fuel + 1, RTok.lit c :: ts, d :: ds =>
      c.toLower == d.toLower && matchToksF fuel ts ds
  | fuel + 1, RTok.wsPlus :: ts, d :: ds =>
      pyIsSpace d &&
        (matchToksF fuel ts ds || matchToksF fuel (RTok.wsPlus :: ts) ds)
  | _ + 1, _ :: _, [] => false

/-- Match a token list against a prefix of the input. -/
def matchToks (ts : List RTok) (s : List Char) : Bool :=
  matchToksF (ts.length + s.length + 1) ts s

/-- Search the token list at every position of the input. -/
def searchFrom (toks : List RTok) : List Char → Bool
  | [] => matchToks toks []
  | c :: cs => matchToks toks (c :: cs) || searchFrom toks cs

/-- `re.search(pattern, s, re.IGNORECASE)` for the embedded subset. -/
def reSearchIC (pattern s : String) : Bool :=
  searchFrom (parsePat pattern.toList) s.toList

/-! ## Data model -/

/-- Modelled from the spec: `oscar/core/planner.py` (which defines
`ActionStep`) is not among the sources; fields follow §3 of the spec and
the attribute accesses in `agent.py`/`safety.py` (`step.id`,
`step.tool`, `step.command`, `step.risk_level`, `step.explanation`). -/
structure ActionStep where
  id : Nat
  tool : String
  command : String
  risk_level : String
  explanation : String
deriving Repr, DecidableEq

/-- Modelled from the spec: `oscar/core/planner.py` (which defines
`AgentPlan`) is not among the sources; fields follow §3 of the spec and
the accesses `plan.thoughts`, `plan.plan`, `plan.risk_level`,
`plan.confirm_prompt` in `agent.py`/`safety.py`. -/
structure AgentPlan where
  thoughts : String
  plan : List ActionStep
  risk_level : String
  confirm_prompt : String
deriving Repr, DecidableEq

/-- Process-wide configuration read by `SafetyScanner.__init__` and
`OSCARAgent` (`settings.safe_mode`, `settings.dry_run_mode`,
`settings.llm_config.safety.dangerous_patterns`). -/
structure Settings where
  safe_mode : Bool
  dry_run_mode : Bool
  dangerous_patterns : List String
deriving Repr, DecidableEq

/-- The default `dangerous_patterns` written by
`OSCARSettings._create_default_config` in `settings.py`. -/
def defaultDangerousPatterns : List String :=
  ["rm\\s+-rf\\s+/", "dd\\s+if=", "format\\s+c:", "del\\s+/s\\s+/q"]

/-! ## Risk analyzer (`SafetyScanner._analyze_step`, `analyze_plan`,
`_generate_recommendations`) -/

/-- Result dict of `_analyze_step`. -/
structure StepAnalysis where
  step_id : Nat
  risk_level : String
  flags : List String
  requires_admin : Bool
  patterns_matched : List String
deriving Repr, DecidableEq

/-- `admin_indicators` in `_analyze_step`. -/
def adminIndicators : List String :=
  ["sudo", "administrator", "runas", "privilege", "admin"]

/-- `system_paths` in `_analyze_step`. -/
def systemPaths : List String :=
  ["/system", "/boot", "c:\\windows", "system32", "/etc", "/usr/bin"]

/-- `network_indicators` in `_analyze_step`. -/
def networkIndicators : List String :=
  ["curl", "wget", "download", "upload", "http", "ftp"]

/-- `SafetyScanner._analyze_step`.  The dangerous-pattern loop has no
`break`: every matching pattern appends one flag and one
`patterns_matched` entry.  The admin and network loops `break` after the
first matching indicator (hence at most one flag each); the system-path
loop does not `break`. -/
def analyzeStep (patterns : List String) (step : ActionStep) : StepAnalysis :=
  let command := step.command.toLower
  let matched := patterns.filter (fun p => reSearchIC p step.command)
  let patFlags := matched.map (fun p => "Dangerous pattern: " ++ p)
  let requiresAdmin := adminIndicators.any (fun i => strContains command i)
  let adminFlags :=
    if requiresAdmin then ["Requires administrative privileges"] else []
  let sysFlags :=
    (systemPaths.filter (fun p => strContains command p.toLower)).map
      (fun p => "Accesses system directory: " ++ p)
  let netFlags :=
    if networkIndicators.any (fun i => strContains command i) then
      ["Network operation detected"]
    else []
  { step_id := step.id
    risk_level := step.risk_level
    flags := patFlags ++ adminFlags ++ sysFlags ++ netFlags
    requires_admin := requiresAdmin
    patterns_matched := matched }

/-- Result dict of `analyze_plan`. -/
structure SafetyAnalysis where
  overall_risk : String
  step_analysis : List StepAnalysis
  safety_flags : List String
  recommendations : List String
  requires_admin : Bool
  dangerous_steps : List Nat
deriving Repr, DecidableEq

/-- `SafetyScanner._generate_recommendations`. -/
def generateRecommendations (dryRunMode : Bool) (overallRisk : String)
    (requiresAdmin : Bool) (dangerousSteps : List Nat) : List String :=
  (if overallRisk == "dangerous" then
    ["⚠️  DANGER: This plan contains potentially destructive operations",
     "🛡️  Consider running in dry-run mode first",
     "💾  Ensure you have recent backups"]
  else if overallRisk == "high" then
    ["⚠️  HIGH RISK: This plan modifies system settings",
     "🔍  Review each step carefully before approval"]
  else [])
  ++ (if requiresAdmin then ["🔑  Administrative privileges required"] else [])
  ++ (if dangerousSteps.length > 0 then
        ["🚨  " ++ toString dangerousSteps.length ++ " steps require extra confirmation"]
      else [])
  ++ (if dryRunMode then ["🧪  DRY RUN MODE: No actual changes will be made"] else [])

/-- `SafetyScanner.analyze_plan`: per-step analyses in plan order,
flags concatenated (`extend` of an empty list is a no-op, so the
`if step_analysis["flags"]` guard is equivalent to plain concatenation),
`dangerous_steps` collects ids of steps with declared risk high or
dangerous in plan order, and `overall_risk` is the plan's own
declaration, copied verbatim. -/
def analyzePlan (patterns : List String) (dryRunMode : Bool)
    (plan : AgentPlan) : SafetyAnalysis :=
  let stepAnalyses := plan.plan.map (analyzeStep patterns)
  let dangerousSteps :=
    (plan.plan.filter
      (fun s => s.risk_level == "high" || s.risk_level == "dangerous")).map
      (fun s => s.id)
  let requiresAdmin := stepAnalyses.any (fun a => a.requires_admin)
  { overall_risk := plan.risk_level
    step_analysis := stepAnalyses
    safety_flags := (stepAnalyses.map (fun a => a.flags)).flatten
    recommendations :=
      generateRecommendations dryRunMode plan.risk_level requiresAdmin dangerousSteps
    requires_admin := requiresAdmin
    dangerous_steps := dangerousSteps }

/-- State-passing form of the method `SafetyScanner.analyze_plan`: the
method reads the scanner's configuration (`self.safety_config`,
`self.dry_run_mode`) and assigns no attribute, so its state-passing
translation returns the scanner state unchanged. -/
def analyzePlanS (sc : Settings) (plan : AgentPlan) :
    SafetyAnalysis × Settings :=
  (analyzePlan sc.dangerous_patterns sc.dry_run_mode plan, sc)

/-! ## Confirmation workflow (`SafetyScanner._get_standard_confirmation`,
`_get_high_risk_confirmation`, `_get_dangerous_confirmation`,
`get_user_confirmation`)

Prompts block on human input.  We model each prompt's eventual reply as
an explicit argument: `some b` / `some s` is the parsed answer finally
obtained (rich's `Confirm.ask` re-asks until it can parse a yes/no, and
defaults to `False` on empty input; `Prompt.ask` with `default=""`
returns `""` on empty input), while `none` is an interrupt signal raised
while awaiting that prompt.  `getpass.getpass` is the only prompt whose
`KeyboardInterrupt` the source catches; everywhere else the interrupt
escapes the workflow, which we record as `ConfOutcome.raised`.  Each
function also returns the trace of prompts it actually issued. -/

/-- A prompt issued to the human.  `stepYesNo` is the per-flagged-step
`Confirm.ask` of `_get_high_risk_confirmation`, recorded with the step
id and command it names. -/
inductive PromptEvent where
  | yesNo (prompt : String)
  | stepYesNo (stepId : Nat) (command : String)
  | literal (prompt : String)
  | secret (prompt : String)
deriving Repr, DecidableEq

/-- Outcome of a confirmation routine: a returned decision
`(approved, reason)`, or a Python exception escaping it (named by its
class, e.g. `"KeyboardInterrupt"`). -/
inductive ConfOutcome where
  | decision (approved : Bool) (reason : String)
  | raised (exn : String)
deriving Repr, DecidableEq

/-- `SafetyScanner._get_standard_confirmation`: a single yes/no
`Confirm.ask` on `plan.confirm_prompt` with default `False`. -/
def getStandardConfirmation (plan : AgentPlan) (reply : Option Bool) :
    ConfOutcome × List PromptEvent :=
  let ev := PromptEvent.yesNo ("\n" ++ plan.confirm_prompt)
  match reply with
  | none => (ConfOutcome.raised "KeyboardInterrupt", [ev])
  | some b =>
      (ConfOutcome.decision b (if b then "User approved" else "User rejected"), [ev])

/-- `SafetyScanner._get_high_risk_confirmation`: one yes/no prompt per
id in `analysis["dangerous_steps"]`, in that list's order, each naming
the step found by `next(s for s in plan.plan if s.id == step_id)`
(a missing id would raise `StopIteration`); the first `False` returns
`(False, "User rejected step <id>")` at once; after all individual
approvals, a final yes/no on `plan.confirm_prompt` decides.  `replies`
are consumed one per prompt; an exhausted reply stream is a closed
stdin, which `Confirm.ask` surfaces as `EOFError`. -/
def getHighRiskConfirmation (plan : AgentPlan) :
    List Nat → List (Option Bool) → ConfOutcome × List PromptEvent
  | [], replies =>
      let ev := PromptEvent.yesNo ("\n[bold]" ++ plan.confirm_prompt ++ "[/bold]")
      match replies with
      | [] => (ConfOutcome.raised "EOFError", [ev])
      | none :: _ => (ConfOutcome.raised "KeyboardInterrupt", [ev])
      | some b :: _ =>
          (ConfOutcome.decision b
            (if b then "User approved high-risk plan"
             else "User rejected final confirmation"), [ev])
  | stepId :: rest, replies =>
      match plan.plan.find? (fun s => s.id == stepId) with
      | none => (ConfOutcome.raised "StopIteration", [])
      | some step =>
          let ev := PromptEvent.stepYesNo stepId step.command
          match replies with
          | [] => (ConfOutcome.raised "EOFError", [ev])
          | none :: _ => (ConfOutcome.raised "KeyboardInterrupt", [ev])
          | some false :: _ =>
              (ConfOutcome.decision false ("User rejected step " ++ toString stepId),
               [ev])
          | some true :: rs =>
              let r := getHighRiskConfirmation plan rest rs
              (r.1, ev :: r.2)

/-- The literal prompt of `_get_dangerous_confirmation`
(`Prompt.ask` with `default=""`). -/
def dangerousLiteralPrompt : String :=
  "\n[bold]Type \x27CONFIRM\x27 to proceed with dangerous operation"

/-- The final acknowledgment prompt of `_get_dangerous_confirmation`. -/
def dangerousFinalPrompt : String :=
  "\n[bold red]I understand this is dangerous and irreversible. Proceed?[/bold red]"

/-- `SafetyScanner._get_dangerous_confirmation`: the typed word must be
exactly `"CONFIRM"` (the prompt's default on empty input is `""`, which
fails the comparison); in safe mode and not dry-run, `getpass` asks for
a password, where an empty password rejects and a `KeyboardInterrupt`
is caught as `(False, "Password entry cancelled")`; a final yes/no
acknowledgment decides.  Interrupts at the literal or final prompt are
not caught and escape. -/
def getDangerousConfirmation (safeMode dryRunMode : Bool)
    (wordReply : Option String) (passwordReply : Option String)
    (finalReply : Option Bool) : ConfOutcome × List PromptEvent :=
  let evWord := PromptEvent.literal dangerousLiteralPrompt
  match wordReply with
  | none => (ConfOutcome.raised "KeyboardInterrupt", [evWord])
  | some w =>
      if w != "CONFIRM" then
        (ConfOutcome.decision false "User failed to type CONFIRM", [evWord])
      else
        let evPw := PromptEvent.secret "Enter your system password: "
        let (gate, evs) :
            Option (ConfOutcome × List PromptEvent) × List PromptEvent :=
          if safeMode && !dryRunMode then
            match passwordReply with
            | none =>
                (some (ConfOutcome.decision false "Password entry cancelled",
                       [evWord, evPw]), [evWord, evPw])
            | some pw =>
                if pw == "" then
                  (some (ConfOutcome.decision false "No password provided",
                         [evWord, evPw]), [evWord, evPw])
                else (none, [evWord, evPw])
          else (none, [evWord])
        match gate with
        | some out => out
        | none =>
            let evFin := PromptEvent.yesNo dangerousFinalPrompt
            match finalReply with
            | none => (ConfOutcome.raised "KeyboardInterrupt", evs ++ [evFin])
            | some b =>
                (ConfOutcome.decision b
                  (if b then "User confirmed dangerous operation"
                   else "User rejected dangerous operation"), evs ++ [evFin])

/-- Replies the human would give to each kind of prompt, `none` being an
interrupt at that prompt (see the section comment). -/
structure HumanReplies where
  standardAck : Option Bool
  ynReplies : List (Option Bool)
  wordReply : Option String
  passwordReply : Option String
  finalReply : Option Bool
deriving Repr, DecidableEq

/-- `SafetyScanner.get_user_confirmation`: route by
`analysis["overall_risk"]` to the dangerous / high / standard policy
(`display_plan` is presentation only and not modelled). -/
def getUserConfirmation (st : Settings) (plan : AgentPlan)
    (analysis : SafetyAnalysis) (h : HumanReplies) :
    ConfOutcome × List PromptEvent :=
  if analysis.overall_risk == "dangerous" then
    getDangerousConfirmation st.safe_mode st.dry_run_mode
      h.wordReply h.passwordReply h.finalReply
  else if analysis.overall_risk == "high" then
    getHighRiskConfirmation plan analysis.dangerous_steps h.ynReplies
  else
    getStandardConfirmation plan h.standardAck

/-- The step ids named by the per-step yes/no prompts of a trace, in the
order the prompts were issued. -/
def promptedStepIds (evs : List PromptEvent) : List Nat :=
  evs.filterMap (fun e =>
    match e with
    | PromptEvent.stepYesNo stepId _ => some stepId
    | _ => none)

/-- Whether a trace contains a secret (password) prompt. -/
def hasSecretPrompt (evs : List PromptEvent) : Bool :=
  evs.any (fun e =>
    match e with
    | PromptEvent.secret _ => true
    | _ => false)

/-! ## Plan executor (`OSCARAgent._execute_plan`) -/

/-- One entry of `execution_result["step_results"]`.  `duration` is
`0.1` seconds per simulated step and `0` per pending step in the
source; we record it in tenths of a second to avoid floating point. -/
structure StepResult where
  step_id : Nat
  tool : String
  command : String
  status : String
  output : String
  durationTenths : Nat
deriving Repr, DecidableEq

/-- `execution_result` dict of `_execute_plan`. -/
structure ExecutionResult where
  success : Bool
  steps_completed : Nat
  total_steps : Nat
  step_results : List StepResult
  error : Option String
deriving Repr, DecidableEq

/-- `OSCARAgent._execute_plan`, together with the list of tool
invocations it performs (always empty: the source invokes no tool in
either branch).  In dry-run mode every step yields a `simulated`
StepResult and `steps_completed` is incremented once per step; the live
branch is an acknowledged placeholder (`"Tool execution not yet
implemented"`) that marks every step `pending` and reports success.
The `try`/`except` wrapper only guards console I/O, which is not
modelled; the loop bodies are total. -/
def executePlan (dryRunMode : Bool) (plan : AgentPlan) :
    ExecutionResult × List String :=
  if dryRunMode then
    ({ success := true
       steps_completed := plan.plan.length
       total_steps := plan.plan.length
       step_results := plan.plan.map (fun step =>
         { step_id := step.id
           tool := step.tool
           command := step.command
           status := "simulated"
           output := "[DRY RUN] Would execute: " ++ step.command
           durationTenths := 1 })
       error := none }, [])
  else
    ({ success := true
       steps_completed := plan.plan.length
       total_steps := plan.plan.length
       step_results := plan.plan.map (fun step =>
         { step_id := step.id
           tool := step.tool
           command := step.command
           status := "pending"
           output := "Tool execution not yet implemented"
           durationTenths := 0 })
       error := none }, [])

/-! ## Safety report (`SafetyScanner.create_safety_report`) -/

/-- Return dict of `create_safety_report`.  The source also stores
`plan_id = hash(str(plan.plan))`, a value of Python's randomized string
hash; being process-environment-dependent it is not modelled.
`timestamp` is the wall clock, passed in as a parameter. -/
structure SafetyReport where
  timestamp : String
  overall_risk : String
  total_steps : Nat
  dangerous_steps : Nat
  safety_flags : Nat
  requires_admin : Bool
  approved : Bool
  approval_reason : String
  dry_run_mode : Bool
  safe_mode : Bool
  flags : List String
  recommendations : List String
deriving Repr, DecidableEq

/-- `SafetyScanner.create_safety_report`. -/
def createSafetyReport (st : Settings) (ts : String) (plan : AgentPlan)
    (analysis : SafetyAnalysis) (approved : Bool) (reason : String) :
    SafetyReport :=
  { timestamp := ts
    overall_risk := analysis.overall_risk
    total_steps := plan.plan.length
    dangerous_steps := analysis.dangerous_steps.length
    safety_flags := analysis.safety_flags.length
    requires_admin := analysis.requires_admin
    approved := approved
    approval_reason := reason
    dry_run_mode := st.dry_run_mode
    safe_mode := st.safe_mode
    flags := analysis.safety_flags
    recommendations := analysis.recommendations }

/-- `analyze_and_confirm_plan` (module-level convenience in
`safety.py`): analyze, confirm, and build the safety report.  An
exception escaping the confirmation prompt escapes this function too. -/
def analyzeAndConfirmPlan (st : Settings) (ts : String) (plan : AgentPlan)
    (h : HumanReplies) : Except String (Bool × SafetyReport) :=
  let analysis := analyzePlan st.dangerous_patterns st.dry_run_mode plan
  match (getUserConfirmation st plan analysis h).1 with
  | ConfOutcome.raised e => Except.error e
  | ConfOutcome.decision approved reason =>
      Except.ok (approved, createSafetyReport st ts plan analysis approved reason)

/-! ## Session (`AgentSession`) -/

/-- One entry of `AgentSession.history`. -/
structure Interaction where
  timestamp : String
  user_input : String
  plan : AgentPlan
  approved : Bool
  safety_report : SafetyReport
  execution_result : Option ExecutionResult
deriving Repr, DecidableEq

/-- `AgentSession` mutable state: the history list and the context
string. -/
structure AgentSession where
  history : List Interaction
  context : String
deriving Repr, DecidableEq

/-- `AgentSession.add_interaction`: append the interaction record to
`self.history` (the source has no capacity bound and evicts nothing),
and extend `self.context` when the interaction was approved and its
execution succeeded. -/
def addInteraction (s : AgentSession) (ts userInput : String)
    (plan : AgentPlan) (approved : Bool) (report : SafetyReport)
    (execResult : Option ExecutionResult) : AgentSession :=
  let inter : Interaction :=
    { timestamp := ts
      user_input := userInput
      plan := plan
      approved := approved
      safety_report := report
      execution_result := execResult }
  { history := s.history ++ [inter]
    context :=
      if approved && (match execResult with
                      | some er => er.success
                      | none => false) then
        s.context ++ "\nRecent action: " ++ userInput ++ " - Completed successfully"
      else s.context }

/-! ## Audit logging (`OSCARAgent._log_interaction` and the summary
builders) -/

/-- `OSCARAgent._create_plan_summary`.  `tools_used` is
`list(set(...))`, whose iteration order Python leaves unspecified;
modelled as first-occurrence deduplication. -/
structure PlanSummary where
  total_steps : Nat
  tools_used : List String
  risk_level : String
  thoughts : String
deriving Repr, DecidableEq

/-- `OSCARAgent._create_safety_summary`. -/
structure SafetySummary where
  overall_risk : String
  approved : Bool
  approval_reason : String
  dangerous_steps : Nat
  safety_flags : Nat
  safe_mode : Bool
  dry_run_mode : Bool
deriving Repr, DecidableEq

/-- `OSCARAgent._create_execution_summary`. -/
structure ExecutionSummary where
  success : Bool
  steps_completed : Nat
  total_steps : Nat
  error : Option String
deriving Repr, DecidableEq

/-- One line of the audit log (`audit_entry` in `_log_interaction`). -/
structure AuditEntry where
  session_id : String
  timestamp : String
  user_input : String
  stage : String
  success : Bool
  plan_summary : Option PlanSummary
  safety_summary : Option SafetySummary
  execution_summary : Option ExecutionSummary
  error : Option String
deriving Repr, DecidableEq

/-- `_create_plan_summary`: thoughts truncated to 200 characters plus
an ellipsis when longer. -/
def createPlanSummary : Option AgentPlan → Option PlanSummary
  | none => none
  | some plan =>
      some
        { total_steps := plan.plan.length
          tools_used := (plan.plan.map (fun step => step.tool)).dedup
          risk_level := plan.risk_level
          thoughts :=
            if plan.thoughts.length > 200 then strTake plan.thoughts 200 ++ "..."
            else plan.thoughts }

/-- `_create_safety_summary`. -/
def createSafetySummary : Option SafetyReport → Option SafetySummary
  | none => none
  | some r =>
      some
        { overall_risk := r.overall_risk
          approved := r.approved
          approval_reason := r.approval_reason
          dangerous_steps := r.dangerous_steps
          safety_flags := r.safety_flags
          safe_mode := r.safe_mode
          dry_run_mode := r.dry_run_mode }

/-- `_create_execution_summary`. -/
def createExecutionSummary : Option ExecutionResult → Option ExecutionSummary
  | none => none
  | some er =>
      some
        { success := er.success
          steps_completed := er.steps_completed
          total_steps := er.total_steps
          error := er.error }

/-! ## Pipeline controller (`OSCARAgent.process_request`) -/

/-- The `result` dict built by `process_request`. -/
structure RequestResult where
  user_input : String
  timestamp : String
  success : Bool
  stage : String
  plan : Option AgentPlan
  safety_report : Option SafetyReport
  execution_result : Option ExecutionResult
  error : Option String
deriving Repr, DecidableEq

/-- `OSCARAgent._log_interaction`: build one audit entry from the
result.  The source appends `json.dumps(audit_entry)` plus a newline to
`audit.jsonl`, catching any write failure; the filesystem append is
modelled by collecting the entries a request appends (see
`ProcessOutput.audit`). -/
def logInteraction (sessionId : String) (r : RequestResult) : AuditEntry :=
  { session_id := sessionId
    timestamp := r.timestamp
    user_input := r.user_input
    stage := r.stage
    success := r.success
    plan_summary := createPlanSummary r.plan
    safety_summary := createSafetySummary r.safety_report
    execution_summary := createExecutionSummary r.execution_result
    error := r.error }

/-- Everything one `process_request` call does that is visible outside
it: the result dict it returns, the audit entries it appends (in
order), the session state afterwards, and — when an exception such as
`KeyboardInterrupt` escapes the `except Exception` handler after the
`finally` block ran — the name of that exception (`result` is then what
the `finally` block saw, never returned to the caller). -/
structure ProcessOutput where
  result : RequestResult
  audit : List AuditEntry
  session : AgentSession
  raised : Option String
deriving Repr, DecidableEq

/-- `OSCARAgent.process_request`.  The external planner call is passed
in as its outcome (`Except.error` = the call raised); the human's
prompt replies as `HumanReplies`.  Control flow follows the source:
on rejection the code logs explicitly and then `return`s, which runs
the `finally` block and logs the same result a second time; the
`finally` block also appends to the session history whenever both
`result["plan"]` and `result["safety_report"]` are set.
`KeyboardInterrupt` is a `BaseException`, so `except Exception` does
not catch it: the `finally` block still logs, then the interrupt
propagates. -/
def processRequest (st : Settings) (sessionId ts : String)
    (session : AgentSession) (userInput : String)
    (planOutcome : Except String AgentPlan) (h : HumanReplies) :
    ProcessOutput :=
  let base : RequestResult :=
    { user_input := userInput
      timestamp := ts
      success := false
      stage := "input"
      plan := none
      safety_report := none
      execution_result := none
      error := none }
  match planOutcome with
  | Except.error e =>
      let r := { base with stage := "error", error := some e }
      { result := r
        audit := [logInteraction sessionId r]
        session := session
        raised := none }
  | Except.ok plan =>
      let r1 := { base with stage := "safety", plan := some plan }
      match analyzeAndConfirmPlan st ts plan h with
      | Except.error e =>
          if e == "KeyboardInterrupt" then
            { result := r1
              audit := [logInteraction sessionId r1]
              session := session
              raised := some e }
          else
            let r := { r1 with stage := "error", error := some e }
            { result := r
              audit := [logInteraction sessionId r]
              session := session
              raised := none }
      | Except.ok (approved, report) =>
          let r2 := { r1 with safety_report := some report }
          if !approved then
            let r := { r2 with stage := "rejected" }
            { result := r
              audit := [logInteraction sessionId r, logInteraction sessionId r]
              session := addInteraction session ts userInput plan report.approved
                report none
              raised := none }
          else
            let er := (executePlan st.dry_run_mode plan).1
            let r :=
              if er.success then
                { r2 with stage := "completed", success := true,
                          execution_result := some er }
              else
                { r2 with stage := "execution_failed",
                          execution_result := some er }
            { result := r
              audit := [logInteraction sessionId r]
              session := addInteraction session ts userInput plan report.approved
                report (some er)
              raised := none }

/-! ## Concrete example data -/

/-- A one-step low-risk plan. -/
def lowRiskPlan : AgentPlan :=
  { thoughts := "t"
    plan := [{ id := 1, tool := "shell", command := "echo hi",
               risk_level := "low", explanation := "e" }]
    risk_level := "low"
    confirm_prompt := "Proceed?" }

/-- A three-step low-risk plan. -/
def threeStepPlan : AgentPlan :=
  { thoughts := "t"
    plan := [{ id := 1, tool := "shell", command := "c1",
               risk_level := "low", explanation := "e1" },
             { id := 2, tool := "shell", command := "c2",
               risk_level := "low", explanation := "e2" },
             { id := 3, tool := "shell", command := "c3",
               risk_level := "low", explanation := "e3" }]
    risk_level := "low"
    confirm_prompt := "go" }

/-- A three-step high-risk plan with ascending ids. -/
def threeHighPlan : AgentPlan :=
  { thoughts := "t"
    plan := [{ id := 1, tool := "shell", command := "a",
               risk_level := "high", explanation := "e1" },
             { id := 2, tool := "shell", command := "b",
               risk_level := "high", explanation := "e2" },
             { id := 3, tool := "shell", command := "c",
               risk_level := "high", explanation := "e3" }]
    risk_level := "high"
    confirm_prompt := "go?" }

/-- A high-risk plan whose steps carry ids 2 and then 1: the ids are
unique and positive as required, but execution order does not follow
ascending id order. -/
def outOfOrderPlan : AgentPlan :=
  { thoughts := "t"
    plan := [{ id := 2, tool := "shell", command := "b",
               risk_level := "high", explanation := "e2" },
             { id := 1, tool := "shell", command := "a",
               risk_level := "high", explanation := "e1" }]
    risk_level := "high"
    confirm_prompt := "go?" }

/-- A step whose command matches two of the default dangerous
patterns. -/
def multiPatternStep : ActionStep :=
  { id := 1, tool := "shell", command := "rm -rf / ; dd if=x",
    risk_level := "dangerous", explanation := "e" }

/-- Default-like settings: safe mode on, dry-run off. -/
def exampleSettings : Settings :=
  { safe_mode := true, dry_run_mode := false,
    dangerous_patterns := defaultDangerousPatterns }

/-- A human who answers "no" to the standard confirmation. -/
def declineReplies : HumanReplies :=
  { standardAck := some false, ynReplies := [], wordReply := none,
    passwordReply := none, finalReply := none }

/-- A concrete safety report (for building interaction records). -/
def exampleReport : SafetyReport :=
  createSafetyReport exampleSettings "t" lowRiskPlan
    (analyzePlan defaultDangerousPatterns false lowRiskPlan) false "User rejected"

/-- Add one fixed interaction record to a session. -/
def addSameInteraction (s : AgentSession) : AgentSession :=
  addInteraction s "t" "u" lowRiskPlan false exampleReport none

/-- The session after `n` interaction records have been added. -/
def sessionAfter : Nat → AgentSession
  | 0 => { history := [], context := "" }
  | n + 1 => addSameInteraction (sessionAfter n)

/-! ## Helper lemmas for the high-risk confirmation loop -/

/-- If the j-th flagged step (0-based) is the first one rejected, the
loop stops there with the step's id in the reason, and the per-step
prompts issued are exactly the first `j+1` flagged ids. -/
lemma highRisk_reject_at (plan : AgentPlan) :
    ∀ (ds : List Nat),
      (∀ i ∈ ds, (plan.plan.find? (fun s => s.id == i)).isSome = true) →
      ∀ (j : Nat) (hj : j < ds.length) (rest : List (Option Bool)),
        (getHighRiskConfirmation plan ds
          (List.replicate j (some true) ++ some false :: rest)).1
          = ConfOutcome.decision false
              ("User rejected step " ++ toString (ds.get ⟨j, hj⟩))
        ∧ promptedStepIds (getHighRiskConfirmation plan ds
            (List.replicate j (some true) ++ some false :: rest)).2
          = ds.take (j + 1) := by
  intro ds
  induction ds with
  | nil =>
    intro _ j hj
    exact absurd hj (by simp)
  | cons i ds ih =>
    intro hfind j hj rest
    obtain ⟨step, hstep⟩ :=
      Option.isSome_iff_exists.1 (hfind i (List.mem_cons_self i ds))
    cases j with
    | zero =>
      simp [getHighRiskConfirmation, hstep, promptedStepIds]
    | succ j =>
      have hfind' : ∀ x ∈ ds, (plan.plan.find? (fun s => s.id == x)).isSome = true :=
        fun x hx => hfind x (List.mem_cons_of_mem i hx)
      have hj' : j < ds.length := Nat.lt_of_succ_lt_succ hj
      obtain ⟨h1, h2⟩ := ih hfind' j hj' rest
      constructor
      · simpa [getHighRiskConfirmation, hstep, List.replicate_succ] using h1
      · simpa [getHighRiskConfirmation, hstep, promptedStepIds,
          List.replicate_succ] using h2

/-- If every flagged step is approved, the loop prompts them all in
list order and the final prompt's answer is the decision. -/
lemma highRisk_all_approved (plan : AgentPlan) :
    ∀ (ds : List Nat),
      (∀ i ∈ ds, (plan.plan.find? (fun s => s.id == i)).isSome = true) →
      ∀ (b : Bool) (rest : List (Option Bool)),
        (getHighRiskConfirmation plan ds
          (List.replicate ds.length (some true) ++ some b :: rest)).1
          = ConfOutcome.decision b
              (if b then "User approved high-risk plan"
               else "User rejected final confirmation")
        ∧ promptedStepIds (getHighRiskConfirmation plan ds
            (List.replicate ds.length (some true) ++ some b :: rest)).2
          = ds := by
  intro ds
  induction ds with
  | nil =>
    intro _ b rest
    simp [getHighRiskConfirmation, promptedStepIds]
  | cons i ds ih =>
    intro hfind b rest
    obtain ⟨step, hstep⟩ :=
      Option.isSome_iff_exists.1 (hfind i (List.mem_cons_self i ds))
    have hfind' : ∀ x ∈ ds, (plan.plan.find? (fun s => s.id == x)).isSome = true :=
      fun x hx => hfind x (List.mem_cons_of_mem i hx)
    obtain ⟨h1, h2⟩ := ih hfind' b rest
    constructor
    · simpa [getHighRiskConfirmation, hstep, List.replicate_succ] using h1
    · simpa [getHighRiskConfirmation, hstep, promptedStepIds,
        List.replicate_succ] using h2

/-! ## Claim theorems -/

/-- C1: the claim states live execution is fail-fast (a failing step is
recorded `failed`, later steps are not attempted, `success = false`,
`steps_completed` counts only the successes).  The live branch of
`_execute_plan` is a placeholder: evaluated on a three-step plan it
invokes no tool at all, marks every step `pending` — including step 3 —
and reports `success = true` with `steps_completed = 3`, so no step can
ever fail and the claimed fail-fast behavior does not exist in the
code. -/
theorem live_execution_placeholder_no_failures :
    (executePlan false threeStepPlan).1.success = true
    ∧ (executePlan false threeStepPlan).1.steps_completed = 3
    ∧ (executePlan false threeStepPlan).1.total_steps = 3
    ∧ (executePlan false threeStepPlan).1.step_results.map
        (fun r => r.step_id) = [1, 2, 3]
    ∧ (executePlan false threeStepPlan).1.step_results.map
        (fun r => r.status) = ["pending", "pending", "pending"]
    ∧ (executePlan false threeStepPlan).2 = [] := by
  decide

/-- C2: the claim states exactly one audit entry is appended per
processed request.  A request rejected at the confirmation stage is
logged twice: once by the explicit `_log_interaction` call in the
rejection branch and once more by the `finally` block that the
`return` triggers. -/
theorem rejected_request_logs_two_audit_entries :
    (processRequest exampleSettings "s" "t0" ⟨[], ""⟩ "req"
      (Except.ok lowRiskPlan) declineReplies).audit.length = 2
    ∧ (processRequest exampleSettings "s" "t0" ⟨[], ""⟩ "req"
        (Except.ok lowRiskPlan) declineReplies).result.stage = "rejected" := by
  decide

/-- C3: in the dangerous-risk policy, any typed word other than the
exact case-sensitive literal `"CONFIRM"` (the prompt's default on empty
input is `""`) yields `(false, "User failed to type CONFIRM")`, the
policy stops there, and no secret prompt is ever issued. -/
theorem dangerous_confirmation_requires_exact_literal
    (safeMode dryRunMode : Bool) (w : String) (pw : Option String)
    (fin : Option Bool) (hw : w ≠ "CONFIRM") :
    getDangerousConfirmation safeMode dryRunMode (some w) pw fin
      = (ConfOutcome.decision false "User failed to type CONFIRM",
         [PromptEvent.literal dangerousLiteralPrompt])
    ∧ hasSecretPrompt
        (getDangerousConfirmation safeMode dryRunMode (some w) pw fin).2
      = false := by
  have hb : (w != "CONFIRM") = true := by
    simpa [bne_iff_ne] using hw
  constructor
  · simp [getDangerousConfirmation, hb]
  · simp [getDangerousConfirmation, hb, hasSecretPrompt]

/-- Witness for C3: the lower-case word `"confirm"` is rejected without
a password prompt, in safe mode with dry-run off. -/
theorem dangerous_confirmation_requires_exact_literal_witness :
    getDangerousConfirmation true false (some "confirm") (some "x") (some true)
      = (ConfOutcome.decision false "User failed to type CONFIRM",
         [PromptEvent.literal dangerousLiteralPrompt])
    ∧ hasSecretPrompt
        (getDangerousConfirmation true false (some "confirm") (some "x")
          (some true)).2 = false :=
  dangerous_confirmation_requires_exact_literal true false "confirm"
    (some "x") (some true) (by decide)

/-- Counterexample for C4: on a plan whose flagged steps appear with
ids 2 and then 1, the individual confirmations are issued for id 2
first — the sequence of prompted ids `[2, 1]` is not ascending, so the
claim that flagged steps are asked in ascending step-id order is
false. -/
theorem high_risk_prompts_not_ascending :
    promptedStepIds (getHighRiskConfirmation outOfOrderPlan
        (analyzePlan defaultDangerousPatterns false outOfOrderPlan).dangerous_steps
        [some true, some true, some true]).2 = [2, 1]
    ∧ ¬ List.Sorted (· ≤ ·)
        (promptedStepIds (getHighRiskConfirmation outOfOrderPlan
          (analyzePlan defaultDangerousPatterns false
            outOfOrderPlan).dangerous_steps
          [some true, some true, some true]).2) := by
  constructor
  · decide
  · intro h
    have : (2 : Nat) ≤ 1 := by
      have h2 : promptedStepIds (getHighRiskConfirmation outOfOrderPlan
          (analyzePlan defaultDangerousPatterns false
            outOfOrderPlan).dangerous_steps
          [some true, some true, some true]).2 = [2, 1] := by decide
      rw [h2] at h
      exact List.rel_of_sorted_cons h 1 (List.mem_singleton.2 rfl)
    omega

/-- C4 (amended): the individual yes/no confirmations for the flagged
steps are asked in the order the flagged ids were collected — plan
order, not necessarily ascending id order; the first "no" (at 0-based
position `j`) short-circuits with `(false, "User rejected step <id>")`
and no later flagged step is prompted; only if every flagged step is
approved is the final yes/no asked, and its answer is the Decision. -/
theorem high_risk_confirmation_plan_order (plan : AgentPlan) (ds : List Nat)
    (hfind : ∀ i ∈ ds, (plan.plan.find? (fun s => s.id == i)).isSome = true) :
    (∀ (j : Nat) (hj : j < ds.length) (rest : List (Option Bool)),
      (getHighRiskConfirmation plan ds
        (List.replicate j (some true) ++ some false :: rest)).1
        = ConfOutcome.decision false
            ("User rejected step " ++ toString (ds.get ⟨j, hj⟩))
      ∧ promptedStepIds (getHighRiskConfirmation plan ds
          (List.replicate j (some true) ++ some false :: rest)).2
        = ds.take (j + 1))
    ∧ (∀ (b : Bool) (rest : List (Option Bool)),
      (getHighRiskConfirmation plan ds
        (List.replicate ds.length (some true) ++ some b :: rest)).1
        = ConfOutcome.decision b
            (if b then "User approved high-risk plan"
             else "User rejected final confirmation")
      ∧ promptedStepIds (getHighRiskConfirmation plan ds
          (List.replicate ds.length (some true) ++ some b :: rest)).2
        = ds) :=
  ⟨fun j hj rest => highRisk_reject_at plan ds hfind j hj rest,
   fun b rest => highRisk_all_approved plan ds hfind b rest⟩

/-- Witness for C4 (amended): on the ascending three-step high-risk
plan, rejecting the second flagged step stops the workflow with
`"User rejected step 2"` after prompting only steps 1 and 2. -/
theorem high_risk_confirmation_plan_order_witness :
    (getHighRiskConfirmation threeHighPlan [1, 2, 3]
      (List.replicate 1 (some true) ++ some false :: [])).1
      = ConfOutcome.decision false
          ("User rejected step " ++ toString ([1, 2, 3].get ⟨1, by decide⟩))
    ∧ promptedStepIds (getHighRiskConfirmation threeHighPlan [1, 2, 3]
        (List.replicate 1 (some true) ++ some false :: [])).2
      = [1, 2, 3].take 2 :=
  (high_risk_confirmation_plan_order threeHighPlan [1, 2, 3] (by decide)).1
    1 (by decide) []

/-- Counterexample for C5: an interrupt while awaiting the standard
(low/medium) yes/no prompt escapes the workflow as `KeyboardInterrupt`
instead of resolving to the Decision `(false, "cancelled")` the claim
requires. -/
theorem interrupt_escapes_standard_prompt :
    (getStandardConfirmation lowRiskPlan none).1
      = ConfOutcome.raised "KeyboardInterrupt"
    ∧ (getStandardConfirmation lowRiskPlan none).1
      ≠ ConfOutcome.decision false "cancelled" := by
  decide

/-- C5 (amended): the only prompt whose interrupt the workflow catches
is the secret (password) entry of the dangerous tier, which resolves to
`(false, "Password entry cancelled")` — not `"cancelled"`; an interrupt
while awaiting any yes/no or literal prompt (standard prompt, dangerous
literal prompt, dangerous final acknowledgment, or a flagged-step
prompt of the high tier) escapes the confirmation workflow as
`KeyboardInterrupt`, which `process_request`'s `except Exception` does
not catch. -/
theorem interrupt_resolution_actual :
    (∀ (fin : Option Bool),
      (getDangerousConfirmation true false (some "CONFIRM") none fin).1
        = ConfOutcome.decision false "Password entry cancelled")
    ∧ (∀ (plan : AgentPlan),
      (getStandardConfirmation plan none).1
        = ConfOutcome.raised "KeyboardInterrupt")
    ∧ (∀ (sm dr : Bool) (pw : Option String) (fin : Option Bool),
      (getDangerousConfirmation sm dr none pw fin).1
        = ConfOutcome.raised "KeyboardInterrupt")
    ∧ (∀ (dr : Bool) (pw : Option String),
      (getDangerousConfirmation false dr (some "CONFIRM") pw none).1
        = ConfOutcome.raised "KeyboardInterrupt")
    ∧ (∀ (plan : AgentPlan) (i : Nat) (rest : List Nat) (step : ActionStep)
        (rs : List (Option Bool)),
      plan.plan.find? (fun s => s.id == i) = some step →
      (getHighRiskConfirmation plan (i :: rest) (none :: rs)).1
        = ConfOutcome.raised "KeyboardInterrupt") := by
  refine ⟨fun fin => rfl, fun plan => rfl, fun sm dr pw fin => rfl,
    fun dr pw => rfl, fun plan i rest step rs h => ?_⟩
  simp [getHighRiskConfirmation, h]

/-- Witness for C5 (amended): an interrupt at the first flagged-step
prompt of the high tier escapes as `KeyboardInterrupt`. -/
theorem interrupt_resolution_actual_witness :
    (getHighRiskConfirmation threeHighPlan [1] [none]).1
      = ConfOutcome.raised "KeyboardInterrupt" :=
  interrupt_resolution_actual.2.2.2.2 threeHighPlan 1 []
    { id := 1, tool := "shell", command := "a",
      risk_level := "high", explanation := "e1" } [] (by decide)

/-- C6: dry-run execution of any plan succeeds with one `simulated`
StepResult per step (in step order, carrying the step's id), an output
that names the would-be command, `steps_completed = total_steps = N`,
and no tool invocation. -/
theorem dry_run_simulates_all_steps (plan : AgentPlan) :
    (executePlan true plan).1.success = true
    ∧ (executePlan true plan).1.steps_completed = plan.plan.length
    ∧ (executePlan true plan).1.total_steps = plan.plan.length
    ∧ (executePlan true plan).1.step_results.map (fun r => r.step_id)
      = plan.plan.map (fun s => s.id)
    ∧ (∀ r ∈ (executePlan true plan).1.step_results,
        r.status = "simulated"
        ∧ r.output = "[DRY RUN] Would execute: " ++ r.command)
    ∧ (executePlan true plan).2 = [] := by
  refine ⟨rfl, rfl, rfl, ?_, ?_, rfl⟩
  · simp [executePlan]
  · intro r hr
    simp [executePlan] at hr
    obtain ⟨step, _, rfl⟩ := hr
    exact ⟨rfl, rfl⟩

/-- Counterexample for C7: eleven interaction records added to a fresh
session leave eleven records in the history — the claimed capacity-10
bound with FIFO eviction does not exist in `add_interaction`. -/
theorem session_history_exceeds_ten :
    (sessionAfter 11).history.length = 11
    ∧ ¬ ((sessionAfter 11).history.length ≤ 10) := by
  decide

/-- C7 (amended): the session history is unbounded — every
`add_interaction` call appends one record at the end and evicts
nothing, so the earlier records are kept in place and after N appends
the history holds exactly N records. -/
theorem add_interaction_never_evicts (s : AgentSession) (ts u : String)
    (plan : AgentPlan) (approved : Bool) (rep : SafetyReport)
    (er : Option ExecutionResult) :
    (addInteraction s ts u plan approved rep er).history.length
      = s.history.length + 1
    ∧ (addInteraction s ts u plan approved rep er).history.take
        s.history.length = s.history := by
  constructor
  · simp [addInteraction]
  · simp [addInteraction, List.take_left]

/-- Counterexample for C8: a command matching two of the default
dangerous patterns receives two dangerous-pattern flags — matching does
not stop at the first pattern, so the claim that at most one flag is
added per step is false. -/
theorem dangerous_pattern_check_flags_twice :
    (analyzeStep defaultDangerousPatterns multiPatternStep).patterns_matched
      = ["rm\\s+-rf\\s+/", "dd\\s+if="]
    ∧ "Dangerous pattern: rm\\s+-rf\\s+/"
        ∈ (analyzeStep defaultDangerousPatterns multiPatternStep).flags
    ∧ "Dangerous pattern: dd\\s+if="
        ∈ (analyzeStep defaultDangerousPatterns multiPatternStep).flags := by
  decide

/-- C8 (amended): the dangerous-pattern check of `_analyze_step` tests
every configured pattern against the step's command (case-insensitive)
and adds one flag naming each matching pattern; it does not stop after
the first match. -/
theorem analyze_step_checks_all_patterns (patterns : List String)
    (step : ActionStep) :
    (analyzeStep patterns step).patterns_matched
      = patterns.filter (fun p => reSearchIC p step.command)
    ∧ (∀ p ∈ patterns, reSearchIC p step.command = true →
        ("Dangerous pattern: " ++ p) ∈ (analyzeStep patterns step).flags) := by
  constructor
  · rfl
  · intro p hp hm
    simp [analyzeStep, List.mem_append, List.mem_map, List.mem_filter]
    exact Or.inl ⟨p, ⟨hp, hm⟩, rfl⟩

/-- Witness for C8 (amended): the second default pattern matches the
two-pattern command and contributes its own flag. -/
theorem analyze_step_checks_all_patterns_witness :
    "Dangerous pattern: dd\\s+if="
      ∈ (analyzeStep defaultDangerousPatterns multiPatternStep).flags :=
  (analyze_step_checks_all_patterns defaultDangerousPatterns
    multiPatternStep).2 "dd\\s+if=" (by decide) (by decide)

/-- C9: the risk analyzer is pure and deterministic — the state-passing
form of the method returns the scanner state unchanged, and re-running
it on the same plan from the state the first run returned yields an
identical SafetyAnalysis. -/
theorem analyze_plan_idempotent (sc : Settings) (plan : AgentPlan) :
    (analyzePlanS sc plan).2 = sc
    ∧ (analyzePlanS (analyzePlanS sc plan).2 plan).1
      = (analyzePlanS sc plan).1 :=
  ⟨rfl, rfl⟩

/-- C10: in live (non-dry-run) mode the placeholder executor invokes no
tool and unconditionally reports success: one StepResult per step with
status `pending` and output `"Tool execution not yet implemented"`,
`steps_completed = total_steps = N`. -/
theorem live_mode_marks_all_pending (plan : AgentPlan) :
    (executePlan false plan).1.success = true
    ∧ (executePlan false plan).1.steps_completed = plan.plan.length
    ∧ (executePlan false plan).1.total_steps = plan.plan.length
    ∧ (executePlan false plan).1.step_results.map (fun r => r.step_id)
      = plan.plan.map (fun s => s.id)
    ∧ (∀ r ∈ (executePlan false plan).1.step_results,
        r.status = "pending"
        ∧ r.output = "Tool execution not yet implemented")
    ∧ (executePlan false plan).2 = [] := by
  refine ⟨rfl, rfl, rfl, ?_, ?_, rfl⟩
  · simp [executePlan]
  · intro r hr
    simp [executePlan] at hr
    obtain ⟨step, _, rfl⟩ := hr
    exact ⟨rfl, rfl⟩

end Oscar
